import Mathlib

/-!
Shallow embedding of the `notion_helper` package (files
`notion_helper/__init__.py` and `notion_helper/orm.py`).

JSON payloads exchanged with the remote store are modelled by `Json`;
native Python values produced by decoding are modelled by `PyVal`.
Dates are modelled with explicit calendar arithmetic so that
`datetime.strptime`, `strftime`, `astimezone` and aware-datetime
comparison can be given executable meanings.
-/

/-- A JSON value, as received from or sent to the Notion API. -/
inductive Json where
  | null
  | bool (b : Bool)
  | num (n : Int)
  | str (s : String)
  | arr (xs : List Json)
  | obj (fields : List (String × Json))
deriving Repr

/-- Dictionary key lookup (`data[key]` / `key in data` on a Python dict). -/
def jlookup : List (String × Json) → String → Option Json
  | [], _ => Option.none
  | (k, v) :: rest, key => if k = key then some v else jlookup rest key

theorem jlookup_sizeOf {fs : List (String × Json)} {key : String} {v : Json}
    (h : jlookup fs key = some v) : sizeOf v < sizeOf fs := by
  induction fs with
  | nil => simp [jlookup] at h
  | cons kv rest ih =>
    simp only [jlookup] at h
    split at h
    · cases h; cases kv; simp; omega
    · have := ih h
      cases kv; simp; omega

/-- Python truthiness of a JSON-decoded value (`if x:`). -/
def Json.truthy : Json → Bool
  | .null => false
  | .bool b => b
  | .num n => !(n == 0)
  | .str s => !(s == "")
  | .arr xs => !xs.isEmpty
  | .obj fs => !fs.isEmpty

/-- A Python `date` object (what `datetime.strptime(s, sFmt).date()` yields). -/
structure PyDate where
  year : Nat
  month : Nat
  day : Nat
deriving DecidableEq, Repr

/-- An offset-aware Python `datetime`: calendar components plus a fixed
UTC offset in microseconds (the only aware datetimes the package
constructs; `%z` offsets may carry seconds and a fraction, hence the
microsecond granularity). -/
structure PyDatetime where
  year : Nat
  month : Nat
  day : Nat
  hour : Nat
  minute : Nat
  second : Nat
  usec : Nat
  offUs : Int
deriving DecidableEq, Repr

/-- A native Python value as produced by `_convert_data` or passed to
`dump_value`. -/
inductive PyVal where
  | pyNone
  | bool (b : Bool)
  | int (n : Int)
  | str (s : String)
  | pydate (d : PyDate)
  | pydatetime (dt : PyDatetime)
  | list (xs : List PyVal)
  | dict (fields : List (String × PyVal))
deriving Repr

mutual
/-- Embed a JSON scalar/structure into the Python value universe
(the conversion the JSON deserializer of the API client performed
before `_convert_data` ever sees the data). -/
def jsonToPyVal : Json → PyVal
  | .null => .pyNone
  | .bool b => .bool b
  | .num n => .int n
  | .str s => .str s
  | .arr xs => .list (jsonToPyValList xs)
  | .obj fs => .dict (jsonToPyValObj fs)

def jsonToPyValList : List Json → List PyVal
  | [] => []
  | j :: rest => jsonToPyVal j :: jsonToPyValList rest

def jsonToPyValObj : List (String × Json) → List (String × PyVal)
  | [] => []
  | (k, j) :: rest => (k, jsonToPyVal j) :: jsonToPyValObj rest
end

mutual
/-- Embed a Python value back into JSON (what `json.dumps` inside the API
client does to a write payload).  `date`/`datetime` objects are not JSON
serializable, which surfaces as an error. -/
def pyToJson : PyVal → Except String Json
  | .pyNone => .ok .null
  | .bool b => .ok (.bool b)
  | .int n => .ok (.num n)
  | .str s => .ok (.str s)
  | .pydate _ => .error "TypeError: Object of type date is not JSON serializable"
  | .pydatetime _ => .error "TypeError: Object of type datetime is not JSON serializable"
  | .list xs => (pyToJsonList xs).map .arr
  | .dict fs => (pyToJsonObj fs).map .obj

def pyToJsonList : List PyVal → Except String (List Json)
  | [] => .ok []
  | v :: rest =>
    match pyToJson v with
    | .error e => .error e
    | .ok j =>
      match pyToJsonList rest with
      | .error e => .error e
      | .ok js => .ok (j :: js)

def pyToJsonObj : List (String × PyVal) → Except String (List (String × Json))
  | [] => .ok []
  | (k, v) :: rest =>
    match pyToJson v with
    | .error e => .error e
    | .ok j =>
      match pyToJsonObj rest with
      | .error e => .error e
      | .ok js => .ok ((k, j) :: js)
end

/-! ## Calendar arithmetic

Proleptic-Gregorian day numbering, used to give aware datetimes an
instant semantics (`datetime.__eq__`/`__le__` on aware values compares
instants) and to implement `astimezone`. -/

def isLeap (y : Nat) : Bool :=
  y % 4 == 0 && (y % 100 != 0 || y % 400 == 0)

def daysInMonth (y m : Nat) : Nat :=
  if m = 2 then (if isLeap y then 29 else 28)
  else if m = 4 ∨ m = 6 ∨ m = 9 ∨ m = 11 then 30
  else 31

/-- Days since 1970-01-01 of a civil date (Gregorian, Hinnant's algorithm). -/
def daysFromCivil (y m d : Int) : Int :=
  let y' := y - (if m ≤ 2 then 1 else 0)
  let era := Int.fdiv y' 400
  let yoe := y' - era * 400
  let doy := (153 * (m + (if m > 2 then -3 else 9)) + 2) / 5 + d - 1
  let doe := yoe * 365 + yoe / 4 - yoe / 100 + doy
  era * 146097 + doe - 719468

/-- Civil date from days since 1970-01-01 (inverse of `daysFromCivil`). -/
def civilFromDays (z : Int) : Int × Int × Int :=
  let z' := z + 719468
  let era := Int.fdiv z' 146097
  let doe := z' - era * 146097
  let yoe := (doe - doe / 1460 + doe / 36524 - doe / 146096) / 365
  let y := yoe + era * 400
  let doy := doe - (365 * yoe + yoe / 4 - yoe / 100)
  let mp := (5 * doy + 2) / 153
  let d := doy - (153 * mp + 2) / 5 + 1
  let m := mp + (if mp < 10 then 3 else -9)
  (y + (if m ≤ 2 then 1 else 0), m, d)

/-- Microseconds since the epoch of an aware datetime (its instant). -/
def PyDatetime.instant (dt : PyDatetime) : Int :=
  (daysFromCivil dt.year dt.month dt.day) * 86400000000
    + ((dt.hour * 3600 + dt.minute * 60 + dt.second : Nat) : Int) * 1000000
    + (dt.usec : Int)
    - dt.offUs

/-- UTC offset, in minutes, of `local_timezone`.  The source reads
`ZoneInfo(os.environ.get('TZ', 'Asia/Shanghai'))`; the default zone
Asia/Shanghai is the fixed offset UTC+8 for all modern instants. -/
def localOffsetMin : Int := 480

/-- `dt.astimezone(local_timezone)`: same instant, re-expressed in the
local fixed offset. -/
def astimezoneLocal (dt : PyDatetime) : PyDatetime :=
  let wall : Int := dt.instant + localOffsetMin * 60000000
  let days : Int := Int.fdiv wall 86400000000
  let rem : Int := wall - days * 86400000000
  let c := civilFromDays days
  { year := c.1.toNat
    month := c.2.1.toNat
    day := c.2.2.toNat
    hour := (rem / 3600000000).toNat
    minute := ((rem / 60000000) % 60).toNat
    second := ((rem / 1000000) % 60).toNat
    usec := (rem % 1000000).toNat
    offUs := localOffsetMin * 60000000 }

/-! ## `_str_to_datetime` (notion_helper/__init__.py)

`datetime.strptime` is modelled per directive, following the regexes
CPython's `_strptime` uses: `%Y` = exactly four digits, `%m` =
`1[0-2]|0[1-9]|[1-9]`, `%d` = `3[01]|[12]\d|0[1-9]|[1-9]`, `%H` =
`2[0-3]|[0-1]\d|\d`, `%M`/`%S` = `[0-5]\d|\d`, `%f` = one to six digits
(right-padded to microseconds), `%z` = the regex
`[+-]\d\d:?[0-5]\d(:?[0-5]\d(\.\d{1,6})?)?` or a case-sensitive `Z`,
whose conversion then rejects inconsistent colon use and hands the
offset to the `timezone` constructor, which rejects magnitudes of 24
hours or more.  After the match, constructing the `datetime`
additionally validates the day against the month length. -/

def digitVal (c : Char) : Nat := c.toNat - '0'.toNat

def expectChar (c : Char) : List Char → Option (List Char)
  | x :: rest => if x = c then some rest else Option.none
  | [] => Option.none

/-- `%Y`: exactly four digits. -/
def parseYear4 : List Char → Option (Nat × List Char)
  | a :: b :: c :: d :: rest =>
    if a.isDigit && b.isDigit && c.isDigit && d.isDigit then
      some (digitVal a * 1000 + digitVal b * 100 + digitVal c * 10 + digitVal d, rest)
    else Option.none
  | _ => Option.none

/-- `%m`: `1[0-2]|0[1-9]|[1-9]` (two-digit alternatives first). -/
def parseMonth : List Char → Option (Nat × List Char)
  | c1 :: c2 :: rest =>
    if (c1 = '1' && '0' ≤ c2 && c2 ≤ '2') || (c1 = '0' && '1' ≤ c2 && c2 ≤ '9') then
      some (digitVal c1 * 10 + digitVal c2, rest)
    else if '1' ≤ c1 && c1 ≤ '9' then some (digitVal c1, c2 :: rest)
    else Option.none
  | [c1] => if '1' ≤ c1 && c1 ≤ '9' then some (digitVal c1, []) else Option.none
  | [] => Option.none

/-- `%d`: `3[01]|[12]\d|0[1-9]|[1-9]`. -/
def parseDay : List Char → Option (Nat × List Char)
  | c1 :: c2 :: rest =>
    if (c1 = '3' && '0' ≤ c2 && c2 ≤ '1')
        || (('1' ≤ c1 && c1 ≤ '2') && c2.isDigit)
        || (c1 = '0' && '1' ≤ c2 && c2 ≤ '9') then
      some (digitVal c1 * 10 + digitVal c2, rest)
    else if '1' ≤ c1 && c1 ≤ '9' then some (digitVal c1, c2 :: rest)
    else Option.none
  | [c1] => if '1' ≤ c1 && c1 ≤ '9' then some (digitVal c1, []) else Option.none
  | [] => Option.none

/-- `%H`: `2[0-3]|[0-1]\d|\d`. -/
def parseHour : List Char → Option (Nat × List Char)
  | c1 :: c2 :: rest =>
    if (c1 = '2' && '0' ≤ c2 && c2 ≤ '3') || (('0' ≤ c1 && c1 ≤ '1') && c2.isDigit) then
      some (digitVal c1 * 10 + digitVal c2, rest)
    else if c1.isDigit then some (digitVal c1, c2 :: rest)
    else Option.none
  | [c1] => if c1.isDigit then some (digitVal c1, []) else Option.none
  | [] => Option.none

/-- `%M` and `%S`: `[0-5]\d|\d`. -/
def parseMinSec : List Char → Option (Nat × List Char)
  | c1 :: c2 :: rest =>
    if ('0' ≤ c1 && c1 ≤ '5') && c2.isDigit then
      some (digitVal c1 * 10 + digitVal c2, rest)
    else if c1.isDigit then some (digitVal c1, c2 :: rest)
    else Option.none
  | [c1] => if c1.isDigit then some (digitVal c1, []) else Option.none
  | [] => Option.none

/-- Take up to `n` leading digits. -/
def takeDigits : Nat → List Char → (List Char × List Char)
  | 0, cs => ([], cs)
  | _ + 1, [] => ([], [])
  | n + 1, c :: rest =>
    if c.isDigit then
      let r := takeDigits n rest
      (c :: r.1, r.2)
    else ([], c :: rest)

/-- `%f`: one to six digits, right-padded with zeros to microseconds. -/
def parseFrac (cs : List Char) : Option (Nat × List Char) :=
  let r := takeDigits 6 cs
  if r.1.isEmpty then Option.none
  else
    let v := r.1.foldl (fun acc c => acc * 10 + digitVal c) 0
    some (v * 10 ^ (6 - r.1.length), r.2)

/-- The optional fraction after the seconds of `%z`
(`(\.\d{1,6})?`, right-padded to microseconds like `%f`); a dot not
followed by a digit is left unconsumed (the group simply fails). -/
def parseZFrac : List Char → Nat × List Char
  | '.' :: c :: rest =>
    if c.isDigit then
      let r := takeDigits 6 (c :: rest)
      (r.1.foldl (fun acc ch => acc * 10 + digitVal ch) 0 * 10 ^ (6 - r.1.length), r.2)
    else (0, '.' :: c :: rest)
  | cs => (0, cs)

/-- The optional seconds group of `%z` (`(:?[0-5]\d(\.\d{1,6})?)?`),
given whether the hour-minute boundary carried a colon.  `none` is a
`strptime` `ValueError`: a coloned minute followed by an uncoloned
seconds pair is the "Inconsistent use of :" error, and an uncoloned
minute followed by a coloned pair mis-slices into `int(':d')`.  A pair
the group cannot match is left unconsumed (it then surfaces as
unconverted data at the caller). -/
def parseZTail (hadColon : Bool) : List Char → Option (Option (Nat × Nat) × List Char)
  | ':' :: s1 :: s2 :: rest =>
    if (('0' ≤ s1 && s1 ≤ '5') && s2.isDigit) then
      if hadColon then
        let fr := parseZFrac rest
        some (some (digitVal s1 * 10 + digitVal s2, fr.1), fr.2)
      else Option.none
    else some (Option.none, ':' :: s1 :: s2 :: rest)
  | s1 :: s2 :: rest =>
    if (('0' ≤ s1 && s1 ≤ '5') && s2.isDigit) then
      if hadColon then Option.none
      else
        let fr := parseZFrac rest
        some (some (digitVal s1 * 10 + digitVal s2, fr.1), fr.2)
    else some (Option.none, s1 :: s2 :: rest)
  | cs => some (Option.none, cs)

/-- `%z`: the regex `[+-]\d\d:?[0-5]\d(:?[0-5]\d(\.\d{1,6})?)?` or a
case-sensitive `Z`; hours are any two digits, minutes and seconds are
capped at 59 by the regex, colon use must be consistent, and the
resulting offset (returned in microseconds) must be an acceptable
`timezone` offset — strictly less than 24 hours in magnitude.  A
conversion `ValueError` and a failed match are observationally the same
for `_str_to_datetime`: both make `strptime` raise and trigger the
fallback. -/
def parseZ : List Char → Option (Int × List Char)
  | 'Z' :: rest => some (0, rest)
  | s :: h1 :: h2 :: rest =>
    if (s = '+' || s = '-') && h1.isDigit && h2.isDigit then
      let hh := digitVal h1 * 10 + digitVal h2
      let hadColon : Bool := match rest with | ':' :: _ => true | _ => false
      let rest1 := match rest with | ':' :: r => r | r => r
      match rest1 with
      | m1 :: m2 :: rest2 =>
        if (('0' ≤ m1 && m1 ≤ '5') && m2.isDigit) then
          let mm := digitVal m1 * 10 + digitVal m2
          match parseZTail hadColon rest2 with
          | Option.none => Option.none
          | some (secFrac, rest3) =>
            let ss := match secFrac with | some sf => sf.1 | Option.none => 0
            let frac := match secFrac with | some sf => sf.2 | Option.none => 0
            let totalUs : Int := ((hh * 3600 + mm * 60 + ss) * 1000000 + frac : Nat)
            if totalUs < 86400000000 then
              some (if s = '-' then -totalUs else totalUs, rest3)
            else Option.none
        else Option.none
      | _ => Option.none
    else Option.none
  | _ => Option.none

/-- `datetime.strptime(s, '%Y-%m-%dT%H:%M:%S.%f%z')`, requiring the whole
string to be consumed and the day to exist in the month. -/
def parseDatetimeFrac (cs : List Char) : Option PyDatetime :=
  match parseYear4 cs with
  | Option.none => Option.none
  | some (y, cs) =>
  match expectChar '-' cs with
  | Option.none => Option.none
  | some cs =>
  match parseMonth cs with
  | Option.none => Option.none
  | some (m, cs) =>
  match expectChar '-' cs with
  | Option.none => Option.none
  | some cs =>
  match parseDay cs with
  | Option.none => Option.none
  | some (d, cs) =>
  match expectChar 'T' cs with
  | Option.none => Option.none
  | some cs =>
  match parseHour cs with
  | Option.none => Option.none
  | some (h, cs) =>
  match expectChar ':' cs with
  | Option.none => Option.none
  | some cs =>
  match parseMinSec cs with
  | Option.none => Option.none
  | some (mi, cs) =>
  match expectChar ':' cs with
  | Option.none => Option.none
  | some cs =>
  match parseMinSec cs with
  | Option.none => Option.none
  | some (sec, cs) =>
  match expectChar '.' cs with
  | Option.none => Option.none
  | some cs =>
  match parseFrac cs with
  | Option.none => Option.none
  | some (us, cs) =>
  match parseZ cs with
  | Option.none => Option.none
  | some (off, cs) =>
  if cs.isEmpty && 1 ≤ y && d ≤ daysInMonth y m then
    some { year := y, month := m, day := d, hour := h, minute := mi,
           second := sec, usec := us, offUs := off }
  else Option.none

/-- `datetime.strptime(s, '%Y-%m-%d')` followed by `.date()`. -/
def parseDateOnly (cs : List Char) : Option PyDate :=
  match parseYear4 cs with
  | Option.none => Option.none
  | some (y, cs) =>
  match expectChar '-' cs with
  | Option.none => Option.none
  | some cs =>
  match parseMonth cs with
  | Option.none => Option.none
  | some (m, cs) =>
  match expectChar '-' cs with
  | Option.none => Option.none
  | some cs =>
  match parseDay cs with
  | Option.none => Option.none
  | some (d, cs) =>
  if cs.isEmpty && 1 ≤ y && d ≤ daysInMonth y m then
    some { year := y, month := m, day := d }
  else Option.none

/-- Result of `_str_to_datetime`: either an aware `datetime` or a bare
`date` (no time component). -/
inductive DateVal where
  | date (d : PyDate)
  | datetime (dt : PyDatetime)
deriving DecidableEq, Repr

/-- `_str_to_datetime` (notion_helper/__init__.py): try the
fractional-second offset-aware format and convert to the local zone; on
`ValueError` fall back to the date-only format, yielding a bare date; if
neither matches, raise. -/
def _str_to_datetime (s : String) : Except String DateVal :=
  match parseDatetimeFrac s.data with
  | some dt => .ok (.datetime (astimezoneLocal dt))
  | Option.none =>
    match parseDateOnly s.data with
    | some d => .ok (.date d)
    | Option.none => .error "Invalid date or datetime format"

/-! ## strftime formatting used by `DateProperty.__date_text` -/

def pad2 (n : Nat) : String :=
  if n < 10 then "0" ++ toString n else toString n

def pad4 (n : Nat) : String :=
  if n < 10 then "000" ++ toString n
  else if n < 100 then "00" ++ toString n
  else if n < 1000 then "0" ++ toString n
  else toString n

/-- `date.strftime('%Y-%m-%d')`. -/
def formatDate (d : PyDate) : String :=
  pad4 d.year ++ "-" ++ pad2 d.month ++ "-" ++ pad2 d.day

def pad6 (n : Nat) : String :=
  String.mk (List.replicate (6 - (toString n).length) '0') ++ toString n

/-- `%z` on an aware datetime (`_format_offset` with empty separator):
sign, two-digit hours, two-digit minutes, a two-digit seconds field only
when the offset has seconds or microseconds, and a six-digit fraction
only when it has microseconds. -/
def formatZ (offUs : Int) : String :=
  let a := offUs.natAbs
  let ss := a / 1000000 % 60
  let frac := a % 1000000
  (if offUs < 0 then "-" else "+")
    ++ pad2 (a / 3600000000) ++ pad2 (a / 60000000 % 60)
    ++ (if ss != 0 || frac != 0 then pad2 ss else "")
    ++ (if frac != 0 then "." ++ pad6 frac else "")

/-- `datetime.strftime('%Y-%m-%dT%H:%M:%S.000%z')` (the fractional part
is the literal `000`: microseconds are dropped). -/
def formatDatetime (dt : PyDatetime) : String :=
  pad4 dt.year ++ "-" ++ pad2 dt.month ++ "-" ++ pad2 dt.day ++ "T"
    ++ pad2 dt.hour ++ ":" ++ pad2 dt.minute ++ ":" ++ pad2 dt.second
    ++ ".000" ++ formatZ dt.offUs

/-! ## `_convert_data` (notion_helper/__init__.py)

The scalar codec: dispatch on which key is present in the payload, in
the source's `elif` order.  Python `KeyError`/`TypeError`/`ValueError`
are modelled as `Except.error`.  The final `else` branch prints the
payload and returns `None`, i.e. unsupported kinds decode to `None`
without failing. -/

/-- The module-global `enable_link` (default `True`). -/
def enable_link : Bool := true

/-- Apply `_str_to_datetime` to a JSON value (must be a string). -/
def convertTimeStr (j : Json) : Except String PyVal :=
  match j with
  | .str s =>
    match _str_to_datetime s with
    | .ok (.date d) => .ok (.pydate d)
    | .ok (.datetime dt) => .ok (.pydatetime dt)
    | .error e => .error e
  | _ => .error "TypeError: strptime() argument 1 must be str"

/-- The `date` branch: `output = [parse(date['start'])]`, and
`date['end']` (a `KeyError` when absent) is appended when truthy. -/
def dateOutput (dfs : List (String × Json)) : Except String PyVal :=
  match jlookup dfs "start" with
  | Option.none => .error "KeyError: start"
  | some startJ =>
    match convertTimeStr startJ with
    | .error e => .error e
    | .ok v1 =>
      match jlookup dfs "end" with
      | Option.none => .error "KeyError: end"
      | some endJ =>
        if endJ.truthy then
          match convertTimeStr endJ with
          | .error e => .error e
          | .ok v2 => .ok (.list [v1, v2])
        else .ok (.list [v1])

/-- The `file`/`external` branches: optional `name` taken from the outer
payload when truthy, required `url` from the attachment object. -/
def fileOutput (fs : List (String × Json)) (fileJ : Json) : Except String PyVal :=
  let nameEntry :=
    match jlookup fs "name" with
    | some nj => if nj.truthy then [("name", jsonToPyVal nj)] else []
    | Option.none => []
  match fileJ with
  | .obj ffs =>
    match jlookup ffs "url" with
    | some u => .ok (.dict (nameEntry ++ [("url", jsonToPyVal u)]))
    | Option.none => .error "KeyError: url"
  | _ => .error "TypeError: not subscriptable"

/-- `[ select['name'] for select in ... ]`. -/
def selectNames : List Json → Except String (List PyVal)
  | [] => .ok []
  | .obj sfs :: rest =>
    match jlookup sfs "name" with
    | some nj =>
      match selectNames rest with
      | .error e => .error e
      | .ok vs => .ok (jsonToPyVal nj :: vs)
    | Option.none => .error "KeyError: name"
  | _ :: _ => .error "TypeError: not subscriptable"

/-- `[ relation['id'] for relation in ... ]`. -/
def relationIds : List Json → Except String (List PyVal)
  | [] => .ok []
  | .obj rfs :: rest =>
    match jlookup rfs "id" with
    | some idj =>
      match relationIds rest with
      | .error e => .error e
      | .ok vs => .ok (jsonToPyVal idj :: vs)
    | Option.none => .error "KeyError: id"
  | _ :: _ => .error "TypeError: not subscriptable"

/-- One `rich_text` chunk: `[plain_text](href)` when the chunk carries a
truthy `href` and `enable_link` holds, else the bare `plain_text`. -/
def richTextChunk (chunk : Json) : Except String String :=
  match chunk with
  | .obj cfs =>
    let url := jlookup cfs "href"
    let urlTruthy := match url with | some u => u.truthy | Option.none => false
    if urlTruthy && enable_link then
      match jlookup cfs "plain_text", url with
      | some (.str pt), some (.str u) => .ok ("[" ++ pt ++ "](" ++ u ++ ")")
      | Option.none, _ => .error "KeyError: plain_text"
      | some _, _ => .error "TypeError: not a string"
    else
      match jlookup cfs "plain_text" with
      | some (.str pt) => .ok pt
      | some _ => .error "TypeError: can only concatenate str"
      | Option.none => .error "KeyError: plain_text"
  | _ => .error "TypeError: not subscriptable"

def richTextConcat : List Json → Except String String
  | [] => .ok ""
  | chunk :: rest =>
    match richTextChunk chunk with
    | .error e => .error e
    | .ok s =>
      match richTextConcat rest with
      | .error e => .error e
      | .ok s' => .ok (s ++ s')

/-- One `title` chunk: always the bare `plain_text`. -/
def titleConcat : List Json → Except String String
  | [] => .ok ""
  | .obj cfs :: rest =>
    match jlookup cfs "plain_text" with
    | some (.str pt) =>
      match titleConcat rest with
      | .error e => .error e
      | .ok s' => .ok (pt ++ s')
    | some _ => .error "TypeError: can only concatenate str"
    | Option.none => .error "KeyError: plain_text"
  | _ :: _ => .error "TypeError: not subscriptable"

/-- The `select`/`status` branches: `None` when the value is falsy, else
its `name`. -/
def selectOutput (j : Json) : Except String PyVal :=
  if j.truthy then
    match j with
    | .obj sfs =>
      match jlookup sfs "name" with
      | some nj => .ok (jsonToPyVal nj)
      | Option.none => .error "KeyError: name"
    | _ => .error "TypeError: not subscriptable"
  else .ok .pyNone

/-- The `unique_id` branch: `"{prefix}-{number}"` when a prefix exists,
else the bare number as a string. -/
def uniqueIdOutput (j : Json) : Except String PyVal :=
  match j with
  | .obj ufs =>
    match jlookup ufs "prefix" with
    | Option.none => .error "KeyError: prefix"
    | some pj =>
      match jlookup ufs "number" with
      | Option.none => .error "KeyError: number"
      | some nj =>
        if pj.truthy then
          match pj, nj with
          | .str p, .num n => .ok (.str (p ++ "-" ++ toString n))
          | _, _ => .error "TypeError: not a string"
        else
          match nj with
          | .num n => .ok (.str (toString n))
          | _ => .error "TypeError: not a number"
  | _ => .error "TypeError: not subscriptable"

mutual
/-- `_convert_data`: key-presence dispatch in the source's `elif` order.
`formula`/`rollup` recurse into the wrapped value; `files` recurses into
each element. -/
def _convert_data (data : Json) : Except String PyVal :=
  match data with
  | .obj fs =>
    match jlookup fs "checkbox" with
    | some j => .ok (jsonToPyVal j)
    | Option.none =>
    match jlookup fs "created_time" with
    | some j => convertTimeStr j
    | Option.none =>
    match jlookup fs "date" with
    | some j =>
      if j.truthy then
        match j with
        | .obj dfs => dateOutput dfs
        | _ => .error "TypeError: not subscriptable"
      else .ok .pyNone
    | Option.none =>
    match jlookup fs "email" with
    | some j => .ok (jsonToPyVal j)
    | Option.none =>
    match hfiles : jlookup fs "files" with
    | some (.arr xs) =>
      match convertFiles xs with
      | .error e => .error e
      | .ok vs => .ok (.list vs)
    | some _ => .error "TypeError: not iterable"
    | Option.none =>
    match jlookup fs "file" with
    | some j => fileOutput fs j
    | Option.none =>
    match jlookup fs "external" with
    | some j => fileOutput fs j
    | Option.none =>
    match hformula : jlookup fs "formula" with
    | some j => _convert_data j
    | Option.none =>
    match jlookup fs "last_edited_time" with
    | some j => convertTimeStr j
    | Option.none =>
    match jlookup fs "multi_select" with
    | some (.arr xs) =>
      match selectNames xs with
      | .error e => .error e
      | .ok vs => .ok (.list vs)
    | some _ => .error "TypeError: not iterable"
    | Option.none =>
    match jlookup fs "number" with
    | some j => .ok (jsonToPyVal j)
    | Option.none =>
    match jlookup fs "phone_number" with
    | some j => .ok (jsonToPyVal j)
    | Option.none =>
    match jlookup fs "relation" with
    | some (.arr xs) =>
      match relationIds xs with
      | .error e => .error e
      | .ok vs => .ok (.list vs)
    | some _ => .error "TypeError: not iterable"
    | Option.none =>
    match hrollup : jlookup fs "rollup" with
    | some j => _convert_data j
    | Option.none =>
    match jlookup fs "rich_text" with
    | some (.arr xs) =>
      match richTextConcat xs with
      | .error e => .error e
      | .ok s => .ok (.str s)
    | some _ => .error "TypeError: not iterable"
    | Option.none =>
    match jlookup fs "select" with
    | some j => selectOutput j
    | Option.none =>
    match jlookup fs "status" with
    | some j => selectOutput j
    | Option.none =>
    match jlookup fs "title" with
    | some (.arr xs) =>
      match titleConcat xs with
      | .error e => .error e
      | .ok s => .ok (.str s)
    | some _ => .error "TypeError: not iterable"
    | Option.none =>
    match jlookup fs "url" with
    | some j => .ok (jsonToPyVal j)
    | Option.none =>
    match jlookup fs "unique_id" with
    | some j => uniqueIdOutput j
    | Option.none => .ok .pyNone
  | _ => .error "TypeError: argument is not a mapping"
termination_by sizeOf data
decreasing_by
  all_goals simp_wf
  · have h := jlookup_sizeOf hfiles; simp at h; omega
  · have h := jlookup_sizeOf hformula; omega
  · have h := jlookup_sizeOf hrollup; omega

def convertFiles : List Json → Except String (List PyVal)
  | [] => .ok []
  | j :: rest =>
    match _convert_data j with
    | .error e => .error e
    | .ok v =>
      match convertFiles rest with
      | .error e => .error e
      | .ok vs => .ok (v :: vs)
termination_by xs => sizeOf xs
decreasing_by
  all_goals simp_wf
  all_goals omega
end

/-! ## Property type system (notion_helper/orm.py)

One constructor per embedded `Property` subclass.  `ReadOnlyProperty`
covers the created-time / formula / rollup / unique-id / file-list
fields; its class attribute `format` stays `None`. -/

inductive PropKind where
  | readOnly
  | title
  | richText
  | date
  | url
  | email
  | phoneNumber
  | checkbox
  | number
  | status
  | select
  | multiSelect
  | relation
deriving DecidableEq, Repr

/-- The `format` class attribute of each subclass (`None` for
`ReadOnlyProperty`, hence the `Option`). -/
def PropKind.format : PropKind → Option String
  | .readOnly => Option.none
  | .title => some "title"
  | .richText => some "rich_text"
  | .date => some "date"
  | .url => some "url"
  | .email => some "email"
  | .phoneNumber => some "phone_number"
  | .checkbox => some "checkbox"
  | .number => some "number"
  | .status => some "status"
  | .select => some "select"
  | .multiSelect => some "multi_select"
  | .relation => some "relation"

/-- `DateProperty.__date_text`: `strftime` with the timestamp format for
`datetime` values, the date-only format for `date` values; anything else
has no `strftime` attribute. -/
def dateText : PyVal → Except String String
  | .pydatetime dt => .ok (formatDatetime dt)
  | .pydate d => .ok (formatDate d)
  | _ => .error "AttributeError: no attribute strftime"

/-- `TitleProperty.dump_value` / `RichTextProperty.dump_value`:
`[{'text': {'content': value}}]`. -/
def textDumpValue (v : PyVal) : Except String Json :=
  match pyToJson v with
  | .error e => .error e
  | .ok j => .ok (.arr [.obj [("text", .obj [("content", j)])]])

/-- `DateProperty.dump_value`: a `datetime` gives `{'start': ...}`; a
list gives `{'start': text(value[0])}` plus `{'end': text(value[1])}`
when the list has more than one element; anything else raises. -/
def dateDumpValue : PyVal → Except String Json
  | .pydatetime dt => .ok (.obj [("start", .str (formatDatetime dt))])
  | .list [] => .error "IndexError: list index out of range"
  | .list (a :: rest) =>
    match dateText a with
    | .error e => .error e
    | .ok s =>
      match rest with
      | [] => .ok (.obj [("start", .str s)])
      | b :: _ =>
        match dateText b with
        | .error e => .error e
        | .ok s' => .ok (.obj [("start", .str s), ("end", .str s')])
  | _ => .error "ValueError: Invalid date type"

/-- `dump_value` of each embedded `Property` subclass.
`ReadOnlyProperty.dump_value` returns `None` for every input. -/
def dumpValue : PropKind → PyVal → Except String Json
  | .readOnly, _ => .ok .null
  | .title, v => textDumpValue v
  | .richText, v => textDumpValue v
  | .date, v => dateDumpValue v
  | .url, v => pyToJson v
  | .email, v => pyToJson v
  | .phoneNumber, v => pyToJson v
  | .checkbox, v => pyToJson v
  | .number, v => pyToJson v
  | .status, v =>
    match pyToJson v with
    | .error e => .error e
    | .ok j => .ok (.obj [("name", j)])
  | .select, v =>
    match pyToJson v with
    | .error e => .error e
    | .ok j => .ok (.obj [("name", j)])
  | .multiSelect, v =>
    match v with
    | .list xs =>
      match pyToJsonList xs with
      | .error e => .error e
      | .ok js => .ok (.arr (js.map (fun j => .obj [("name", j)])))
    | _ => .error "TypeError: not iterable"
  | .relation, v =>
    match v with
    | .list xs =>
      match pyToJsonList xs with
      | .error e => .error e
      | .ok js => .ok (.arr (js.map (fun j => .obj [("id", j)])))
    | _ => .error "TypeError: not iterable"

/-- A declared field: its `Property` subclass and the optional
remote-side name override (`Property.__init__`'s `name`). -/
structure PropDecl where
  variant : PropKind
  nameOverride : Option String
deriving DecidableEq, Repr

/-- `Property.dump`: `{self.format: self.dump_value(value)}`.  The
`format` of `ReadOnlyProperty` is `None`; a `None` dictionary key is
representable in Python but not in the JSON payload type, and no code
path in the embedded claims reaches it. -/
def dumpProp (d : PropDecl) (v : PyVal) : Except String Json :=
  match d.variant.format with
  | some fmt =>
    match dumpValue d.variant v with
    | .error e => .error e
    | .ok j => .ok (.obj [(fmt, j)])
  | Option.none => .error "None format key"

/-- `Property.load` for every embedded subclass except
`RelationProperty` is `_convert_data` on the raw payload. -/
def loadProp (data : Json) : Except String PyVal := _convert_data data

/-- `Property.filter_value(value)` with the default `'='` operator:
`{'property': self.name, self.format: {'equals': value}}`.  Note the
source puts `self.name` there even when no override was given (it is
then `None`).  `DateProperty.filter_value` first replaces the value by
`__date_text(value[0])`. -/
def filterValue (d : PropDecl) (v : PyVal) : Except String Json :=
  let nameJson : Json := match d.nameOverride with
    | some n => .str n
    | Option.none => .null
  match d.variant with
  | .date =>
    match v with
    | .list (a :: _) =>
      match dateText a with
      | .error e => .error e
      | .ok s => .ok (.obj [("property", nameJson), ("date", .obj [("equals", .str s)])])
    | .list [] => .error "IndexError: list index out of range"
    | _ => .error "TypeError: not subscriptable"
  | k =>
    match k.format with
    | Option.none => .error "None format key"
    | some fmt =>
      match pyToJson v with
      | .error e => .error e
      | .ok j => .ok (.obj [("property", nameJson), (fmt, .obj [("equals", j)])])

/-! ## Model / Manager layer (notion_helper/orm.py)

A record type is a `ModelClass`; a record instance is an `Instance`.
Remote interaction is abstracted by `Remote`: `queryResult` is what
`objects.filter(f).query()` materializes for a given filter, and
`createId` is the identifier `pages.create` returns.  Every operation
returns a `SaveResult` carrying the remote calls it issued, in order,
so that "issues no create" and "performs no mutation" are inspectable. -/

structure ModelClass where
  databaseId : String
  /-- The declared `Property` class attributes, in the (alphabetical)
  order `inspect.getmembers` enumerates them. -/
  propDefs : List (String × PropDecl)
  uniqueKeys : List String
deriving Repr

structure Instance where
  cls : ModelClass
  id : Option String
  /-- Values of the declared fields; a missing entry is the `None` the
  constructor initialized every declared field to. -/
  vals : List (String × PyVal)
deriving Repr

def plookupVal : List (String × PyVal) → String → Option PyVal
  | [], _ => Option.none
  | (k, v) :: rest, key => if k = key then some v else plookupVal rest key

/-- `getattr(self, key)`: the stored field value, `None` when never set. -/
def Instance.valOf (inst : Instance) (key : String) : PyVal :=
  match plookupVal inst.vals key with
  | some v => v
  | Option.none => .pyNone

def plookupDecl : List (String × PropDecl) → String → Option PropDecl
  | [], _ => Option.none
  | (k, d) :: rest, key => if k = key then some d else plookupDecl rest key

/-- `getattr(self.__class__, key)`: the declared `Property` descriptor. -/
def ModelClass.declOf (cls : ModelClass) (key : String) : Option PropDecl :=
  plookupDecl cls.propDefs key

/-- `define.name if define.name else key`. -/
def resolvedName (key : String) (d : PropDecl) : String :=
  match d.nameOverride with
  | some n => n
  | Option.none => key

/-- `value is None` (a field never assigned reads as the `None` the
constructor stored). -/
def PyVal.isNone : PyVal → Bool
  | .pyNone => true
  | _ => false

/-- The stored value of a field, `None` when absent. -/
def lookupVal (vals : List (String × PyVal)) (key : String) : PyVal :=
  match plookupVal vals key with
  | some v => v
  | Option.none => .pyNone

/-- The body of `Model.__dump_properties`, recursing over the declared
fields: `ReadOnlyProperty` fields are excluded up front, unique keys are
skipped when `excludeUniqueKeys`, fields whose current value is `None`
are skipped, and every remaining field contributes
`data[name] = define.dump(value)`. -/
def dumpFields (uniqueKeys : List String) (vals : List (String × PyVal))
    (excludeUniqueKeys : Bool) :
    List (String × PropDecl) → Except String (List (String × Json))
  | [] => .ok []
  | (key, d) :: rest =>
    if d.variant = .readOnly then
      dumpFields uniqueKeys vals excludeUniqueKeys rest
    else if excludeUniqueKeys && uniqueKeys.contains key then
      dumpFields uniqueKeys vals excludeUniqueKeys rest
    else if (lookupVal vals key).isNone then
      dumpFields uniqueKeys vals excludeUniqueKeys rest
    else
      match dumpProp d (lookupVal vals key) with
      | .error e => .error e
      | .ok j =>
        match dumpFields uniqueKeys vals excludeUniqueKeys rest with
        | .error e => .error e
        | .ok out => .ok ((resolvedName key d, j) :: out)

/-- `Model.__dump_properties(exclude_unique_keys)`. -/
def Instance.dump_properties (inst : Instance) (excludeUniqueKeys : Bool) :
    Except String (List (String × Json)) :=
  dumpFields inst.cls.uniqueKeys inst.vals excludeUniqueKeys inst.cls.propDefs

/-- A remote call issued by a record operation. -/
inductive Op where
  | query (filter : Json)
  | create (databaseId : String) (props : List (String × Json))
  | update (pageId : String) (props : List (String × Json))
deriving Repr

def Op.isCreate : Op → Bool
  | .create _ _ => true
  | _ => false

def Op.isMutation : Op → Bool
  | .query _ => false
  | .create _ _ => true
  | .update _ _ => true

/-- The outcome of a record operation: the updated instance or the
raised exception, together with the remote calls issued (in order). -/
inductive SaveResult where
  | ok (inst : Instance) (ops : List Op)
  | err (msg : String) (ops : List Op)
deriving Repr

def SaveResult.ops : SaveResult → List Op
  | .ok _ ops => ops
  | .err _ ops => ops

def SaveResult.prependOp (op : Op) : SaveResult → SaveResult
  | .ok inst ops => .ok inst (op :: ops)
  | .err e ops => .err e (op :: ops)

/-- The store as the record operations see it: what a filtered query
materializes, and the identifier a create returns. -/
structure Remote where
  queryResult : Json → List Instance
  createId : String

/-- `[ getattr(self.__class__, key).filter_value(getattr(self, key)) for
key in self.unique_keys ]`. -/
def buildFilterList (inst : Instance) : List String → Except String (List Json)
  | [] => .ok []
  | k :: rest =>
    match inst.cls.declOf k with
    | Option.none => .error "AttributeError"
    | some d =>
      match filterValue d (inst.valOf k) with
      | .error e => .error e
      | .ok f =>
        match buildFilterList inst rest with
        | .error e => .error e
        | .ok fs => .ok (f :: fs)

/-- The uniqueness filter `save`/`upsert` build over `unique_keys`:
single-field `filter_value`, or an `and` of all of them. -/
def buildUniqueFilter (inst : Instance) : Except String Json :=
  match inst.cls.uniqueKeys with
  | [] => .error "no unique keys"
  | [k] =>
    match inst.cls.declOf k with
    | Option.none => .error "AttributeError"
    | some d => filterValue d (inst.valOf k)
  | ks =>
    match buildFilterList inst ks with
    | .error e => .error e
    | .ok fs => .ok (.obj [("and", .arr fs)])

/-- `Model.update`: requires an identifier, then issues
`pages.update(page_id, properties=__dump_properties(exclude_unique_keys=True))`. -/
def Instance.update (inst : Instance) : SaveResult :=
  match inst.id with
  | some pid =>
    match inst.dump_properties true with
    | .error e => .err e []
    | .ok props => .ok inst [.update pid props]
  | Option.none => .err "Object id is None." []

/-- `Model.save`: with an identifier, delegate to `update`.  Without
one, when `unique_keys` is non-empty, build the uniqueness filter,
query, and raise `IntegrityError` when anything matches; otherwise
create and adopt the returned identifier. -/
def Instance.save (r : Remote) (inst : Instance) : SaveResult :=
  match inst.id with
  | some _ => inst.update
  | Option.none =>
    if inst.cls.uniqueKeys.isEmpty then
      match inst.dump_properties false with
      | .error e => .err e []
      | .ok props =>
        .ok { inst with id := some r.createId }
          [.create inst.cls.databaseId props]
    else
      match buildUniqueFilter inst with
      | .error e => .err e []
      | .ok f =>
        let objs := r.queryResult f
        if objs.length > 0 then
          .err "Unique constraint failed." [.query f]
        else
          match inst.dump_properties false with
          | .error e => .err e [.query f]
          | .ok props =>
            .ok { inst with id := some r.createId }
              [.query f, .create inst.cls.databaseId props]

/-- `Model.upsert`: one or more unique keys give the same filter as
`save`; no unique key at all falls through to `save()`.  Zero matches:
`save()`; exactly one match: adopt its identifier and `update()`; more:
raise. -/
def Instance.upsert (r : Remote) (inst : Instance) : SaveResult :=
  if inst.cls.uniqueKeys.isEmpty then
    inst.save r
  else
    match buildUniqueFilter inst with
    | .error e => .err e []
    | .ok f =>
      match r.queryResult f with
      | [] => (inst.save r).prependOp (.query f)
      | [o] => (Instance.update { inst with id := o.id }).prependOp (.query f)
      | _ :: _ :: _ =>
        .err "There are more than one object that meets the filtering criteria."
          [.query f]

/-! ## Manager (notion_helper/orm.py)

`ModelBase.objects` is a metaclass property: every access evaluates
`Manager(cls)`, whose constructor sets `query_filter` and
`query_order_by` to `None`. -/

structure Manager where
  model : ModelClass
  queryFilter : Option Json
  queryOrderBy : Option (List Json)

/-- `ModelBase.objects`: a fresh `Manager(cls)`. -/
def objects (cls : ModelClass) : Manager :=
  { model := cls, queryFilter := Option.none, queryOrderBy := Option.none }

/-- `Manager.filter`: sets `query_filter` and returns the manager. -/
def Manager.filter (m : Manager) (f : Json) : Manager :=
  { m with queryFilter := some f }

/-- `Manager.order_by`: sets `query_order_by` (the `*args` tuple) and
returns the manager. -/
def Manager.order_by (m : Manager) (sorts : List Json) : Manager :=
  { m with queryOrderBy := some sorts }

/-- The query dictionary `Manager.query` sends: always `database_id`;
`filter` only when `self.query_filter` is truthy; `sorts` only when
`self.query_order_by` is truthy (an empty tuple is falsy). -/
def Manager.queryPayload (m : Manager) : List (String × Json) :=
  [("database_id", .str m.model.databaseId)]
    ++ (match m.queryFilter with
        | some f => if f.truthy then [("filter", f)] else []
        | Option.none => [])
    ++ (match m.queryOrderBy with
        | some sorts => if sorts.isEmpty then [] else [("sorts", .arr sorts)]
        | Option.none => [])

/-! ## Python `==` on decoded values

Aware datetimes compare by instant; a bare `date` never equals a
`datetime`; `bool` and `int` compare numerically; dictionaries compare
by key lookup, order-insensitively. -/

mutual
def pyEq : PyVal → PyVal → Bool
  | .pyNone, .pyNone => true
  | .bool a, .bool b => a == b
  | .bool a, .int n => (if a then (1 : Int) else 0) == n
  | .int n, .bool b => n == (if b then (1 : Int) else 0)
  | .int a, .int b => a == b
  | .str a, .str b => a == b
  | .pydate a, .pydate b => a == b
  | .pydatetime a, .pydatetime b => a.instant == b.instant
  | .list a, .list b => pyEqList a b
  | .dict a, .dict b => a.length == b.length && pyEqDictSub a b
  | _, _ => false

def pyEqList : List PyVal → List PyVal → Bool
  | [], [] => true
  | a :: as', b :: bs' => pyEq a b && pyEqList as' bs'
  | _, _ => false

def pyEqDictSub : List (String × PyVal) → List (String × PyVal) → Bool
  | [], _ => true
  | (k, v) :: rest, b =>
    (match plookupPy b k with
     | some w => pyEq v w
     | Option.none => false)
    && pyEqDictSub rest b

def plookupPy : List (String × PyVal) → String → Option PyVal
  | [], _ => Option.none
  | (k, v) :: rest, key => if k = key then some v else plookupPy rest key
end

/-! ## Block renderer (`_block_to_text` and `Model.__list_blocks`)

A closed subset of the block kinds is embedded, one constructor per
covered `elif` branch of `_block_to_text`; each embedded branch is
faithful to the source, and every branch other than `table_row` returns
the `table` state argument unchanged.  A rich-text chunk is a
`(plain_text, href)` pair. -/

structure Chunk where
  plainText : String
  href : Option String
deriving DecidableEq, Repr

inductive BlockData where
  | paragraph (chunks : List Chunk)
  | heading_1 (chunks : List Chunk)
  | bulleted_list_item (chunks : List Chunk)
  | quote (chunks : List Chunk)
  | divider
  | table_row (cells : List (List Chunk))
  /-- A breadcrumb / column / synced-block / table-of-contents etc.
  node: the final `else` branch, rendering as the empty string. -/
  | unsupported
deriving Repr

/-- The `rich_text` branch of `_convert_data` specialized to well-formed
chunks (what block payloads contain): `[text](url)` when an `href` is
present and `enable_link` holds, else the plain text. -/
def chunksText : List Chunk → String
  | [] => ""
  | c :: rest =>
    (match c.href with
     | some u => if enable_link then "[" ++ c.plainText ++ "](" ++ u ++ ")" else c.plainText
     | Option.none => c.plainText)
    ++ chunksText rest

/-- One table cell: chunks joined, a chunk with an `href` rendering as
`[plain_text(href)]`. -/
def cellText : List Chunk → String
  | [] => ""
  | c :: rest =>
    (match c.href with
     | some u => "[" ++ c.plainText ++ "(" ++ u ++ ")]"
     | Option.none => c.plainText)
    ++ cellText rest

/-- `"| " + " | ".join(cells_text) + " |"`. -/
def tableRowLine (cells : List (List Chunk)) : String :=
  "| " ++ String.intercalate " | " (cells.map cellText) ++ " |"

/-- `"| " + " | ".join(["---" for _ in cells_text]) + " |"`. -/
def tableSepLine (cells : List (List Chunk)) : String :=
  "| " ++ String.intercalate " | " (cells.map (fun _ => "---")) ++ " |"

/-- `_block_to_text(data, table)`: returns `(output, table, indentation)`.
The `table` argument models the Python `table` parameter, with `false`
for `None` (the parameter is only ever `None` or `True` in the source). -/
def _block_to_text (data : BlockData) (table : Bool) : String × Bool × String :=
  match data with
  | .paragraph chunks => (chunksText chunks, table, "")
  | .heading_1 chunks => ("# " ++ chunksText chunks, table, "")
  | .bulleted_list_item chunks => ("* " ++ chunksText chunks, table, "\t")
  | .quote chunks => ("> " ++ chunksText chunks, table, "")
  | .divider => ("---", table, "")
  | .table_row cells =>
    if table then
      (tableRowLine cells, table, "")
    else
      (tableRowLine cells ++ "\n" ++ tableSepLine cells, true, "")
  | .unsupported => ("", table, "")

/-- The table-state threading of one sibling step: the second component
`_block_to_text` hands to the next iteration of `__list_blocks`'s loop. -/
def stateStep (t : Bool) (b : BlockData) : Bool :=
  (_block_to_text b t).2.1

def isTableRow : BlockData → Bool
  | .table_row _ => true
  | _ => false

/-- A block tree node: payload plus fetched children. -/
inductive Block where
  | node (data : BlockData) (children : List Block)
deriving Repr

def Block.data : Block → BlockData
  | .node d _ => d

def Block.children : Block → List Block
  | .node _ ch => ch

def repeatStr : Nat → String → String
  | 0, _ => ""
  | n + 1, s => s ++ repeatStr n s

/-- The per-sibling string appended by one iteration of
`Model.__list_blocks`'s loop (before descending into children): a blank
line when neither an indent marker nor the updated table state applies,
then a newline, the indentation and the fragment; nothing when the
fragment is empty. -/
def sibPiece (bd : BlockData) (t : Bool) (lvl : Nat) : String :=
  let r := _block_to_text bd t
  if r.1 = "" then ""
  else
    (if r.2.2 = "" && r.2.1 = false then "\n" else "")
      ++ "\n" ++ repeatStr lvl r.2.2 ++ r.1

mutual
/-- `Model.__list_blocks(parent_id, child_level)`: `table` starts at
`None` for each invocation and is threaded through the sibling loop via
`stateStep`; a block with children is followed by its recursively
rendered subtree at `child_level + 1`. -/
def listBlocksAux : List Block → Bool → Nat → String
  | [], _, _ => ""
  | .node bd ch :: rest, t, lvl =>
    sibPiece bd t lvl
      ++ (if ch.isEmpty then "" else listBlocksFresh ch (lvl + 1))
      ++ listBlocksAux rest (stateStep t bd) lvl

def listBlocksFresh : List Block → Nat → String
  | bs, lvl => listBlocksAux bs false lvl
end

/-- The top-level call made by `Model.detail` (before `.strip()`). -/
def list_blocks (bs : List Block) : String :=
  listBlocksFresh bs 0

/-! ## `list_page_blocks` (notion_helper/__init__.py)

A raw block as the traversal sees it: its type tag, the `has_children`
flag, the `synced_block` payload when the key is present (with
`synced_from` being `null` on the origin of synced content and a source
block reference on a mirror), and the children the recursive call would
fetch. -/

structure PBlock where
  id : String
  btype : String
  hasChildren : Bool
  /-- `none`: no `synced_block` key.  `some none`: `synced_from` is
  `null` (the origin).  `some (some src)`: a mirror of block `src`. -/
  syncedFrom : Option (Option String)
  children : List PBlock
deriving Repr

/-- The skip condition: `exclude_synced_block and 'synced_block' in
block and not block['synced_block']['synced_from']`. -/
def syncSkip (exclude : Bool) (b : PBlock) : Bool :=
  exclude && (match b.syncedFrom with
              | some Option.none => true
              | _ => false)

/-- `list_page_blocks(client, page_id, exclude_synced_block, page_size)`
as the list of blocks the generator yields.  When the skip condition
holds the `continue` skips both the recursion and the trailing `yield`.
The recursive call passes `page_size` (default `100`, truthy)
positionally into the `exclude_synced_block` parameter, so descent
always excludes. -/
def list_page_blocks (exclude : Bool) : List PBlock → List PBlock
  | [] => []
  | ⟨bid, bt, hc, sf, ch⟩ :: rest =>
    (if hc && bt ≠ "child_page" then
       if syncSkip exclude ⟨bid, bt, hc, sf, ch⟩ then []
       else list_page_blocks true ch ++ [⟨bid, bt, hc, sf, ch⟩]
     else [⟨bid, bt, hc, sf, ch⟩])
      ++ list_page_blocks exclude rest
termination_by bs => sizeOf bs
decreasing_by
  all_goals simp_wf
  all_goals omega

/-! ## `list_recent_pages` (notion_helper/__init__.py) -/

/-- A page as returned by the search endpoint. -/
structure RPage where
  id : String
  last_edited_time : String
deriving DecidableEq, Repr

/-- `list_recent_pages(client, cutoff_time, ...)` over the stream of
pages the search yields (sorted by `last_edited_time` descending by the
request's sort): stop (`return`) at the first page whose parsed
`last_edited_time` is `<=` the cutoff, otherwise yield the page.
Comparing the bare date the fallback format produces against an aware
`datetime` cutoff is a Python `TypeError`. -/
def list_recent_pages (cutoff : Option PyDatetime) :
    List RPage → Except String (List RPage)
  | [] => .ok []
  | p :: rest =>
    match cutoff with
    | Option.none =>
      match list_recent_pages Option.none rest with
      | .error e => .error e
      | .ok ps => .ok (p :: ps)
    | some c =>
      match _str_to_datetime p.last_edited_time with
      | .error e => .error e
      | .ok (.date _) => .error "TypeError: cannot compare date and datetime"
      | .ok (.datetime dt) =>
        if dt.instant ≤ c.instant then .ok []
        else
          match list_recent_pages (some c) rest with
          | .error e => .error e
          | .ok ps => .ok (p :: ps)

/-- The decidable "strictly newer than the cutoff" test on a page. -/
def pageNewer (c : PyDatetime) (p : RPage) : Bool :=
  match _str_to_datetime p.last_edited_time with
  | .ok (.datetime dt) => c.instant < dt.instant
  | _ => false

/-! # Theorems -/

/-! ## C4: date/time literal decoding -/

theorem pyToJsonList_strs (ls : List String) :
    pyToJsonList (ls.map PyVal.str) = .ok (ls.map Json.str) := by
  induction ls with
  | nil => rfl
  | cons a rest ih => simp [pyToJsonList, pyToJson, ih]

theorem selectNames_strs (ls : List String) :
    selectNames (ls.map ((fun j => Json.obj [("name", j)]) ∘ Json.str))
      = .ok (ls.map PyVal.str) := by
  induction ls with
  | nil => rfl
  | cons a rest ih => simp [selectNames, jlookup, ih, jsonToPyVal, Function.comp]

theorem relationIds_strs (ls : List String) :
    relationIds (ls.map ((fun j => Json.obj [("id", j)]) ∘ Json.str))
      = .ok (ls.map PyVal.str) := by
  induction ls with
  | nil => rfl
  | cons a rest ih => simp [relationIds, jlookup, ih, jsonToPyVal, Function.comp]

/-- An aware datetime at UTC (representative date-range start). -/
def dtA : PyDatetime := ⟨2024, 1, 1, 10, 0, 0, 0, 0⟩

/-- An aware datetime at UTC+8 (representative date-range end). -/
def dtB : PyDatetime := ⟨2024, 1, 2, 23, 30, 0, 0, 28800000000⟩

/-- A representative two-element date range. -/
def dateRangeSample : PyVal := .list [.pydatetime dtA, .pydatetime dtB]

/-- C5 counterexample: for the title kind and the representative native
value `"a"`, decoding the payload produced by encoding does not return
the value — it raises, because the write payload carries
`{'text': {'content': ...}}` chunks while the decoder unconditionally
indexes `chunk['plain_text']`, a key the encoder never emits. -/
theorem c5_roundtrip_counterexample :
    (dumpProp ⟨.title, Option.none⟩ (.str "a")).bind _convert_data
      = .error "KeyError: plain_text" := by
  simp only [dumpProp, dumpValue, textDumpValue, pyToJson, PropKind.format, Except.bind]
  simp [_convert_data, jlookup, titleConcat]

/-- C5 as amended: `decode(encode(x)) == x` holds for checkbox, number,
multi-select label lists and relation foreign-id lists (the scalar codec
returning the raw id list), and for a representative two-element date
range of offset-aware whole-second instants (equality being Python's
instant-based aware-datetime equality, the decoded range being
re-expressed in the local zone).  It fails for title and rich-text
(`KeyError: plain_text`, as the encoder emits `text.content` chunks, not
`plain_text` chunks), for a single datetime and for bare dates (the
encoded payload lacks the `end` key the decoder unconditionally indexes,
and a bare `date` is rejected by `dump_value` outright). -/
theorem c5_roundtrip_amended :
    (∀ b : Bool,
      (dumpProp ⟨.checkbox, Option.none⟩ (.bool b)).bind _convert_data = .ok (.bool b))
  ∧ (∀ n : Int,
      (dumpProp ⟨.number, Option.none⟩ (.int n)).bind _convert_data = .ok (.int n))
  ∧ (∀ labels : List String,
      (dumpProp ⟨.multiSelect, Option.none⟩ (.list (labels.map PyVal.str))).bind _convert_data
        = .ok (.list (labels.map PyVal.str)))
  ∧ (∀ ids : List String,
      (dumpProp ⟨.relation, Option.none⟩ (.list (ids.map PyVal.str))).bind _convert_data
        = .ok (.list (ids.map PyVal.str)))
  ∧ (((dumpProp ⟨.date, Option.none⟩ dateRangeSample).bind _convert_data).map
        (fun v => pyEq v dateRangeSample) = .ok true)
  ∧ ((dumpProp ⟨.richText, Option.none⟩ (.str "a")).bind _convert_data
        = .error "KeyError: plain_text")
  ∧ ((dumpProp ⟨.date, Option.none⟩ (.pydatetime dtA)).bind _convert_data
        = .error "KeyError: end")
  ∧ ((dumpProp ⟨.date, Option.none⟩ (.pydate ⟨2024, 1, 1⟩)).bind _convert_data
        = .error "ValueError: Invalid date type") := by
  refine ⟨?_, ?_, ?_, ?_, ?_, ?_, ?_, ?_⟩
  · intro b
    simp [dumpProp, dumpValue, pyToJson, PropKind.format, Except.bind, _convert_data,
      jlookup, jsonToPyVal]
  · intro n
    simp [dumpProp, dumpValue, pyToJson, PropKind.format, Except.bind, _convert_data,
      jlookup, jsonToPyVal]
  · intro labels
    simp only [dumpProp, dumpValue, PropKind.format, pyToJsonList_strs, Except.bind]
    simp [_convert_data, jlookup, selectNames_strs]
  · intro ids
    simp only [dumpProp, dumpValue, PropKind.format, pyToJsonList_strs, Except.bind]
    simp [_convert_data, jlookup, relationIds_strs]
  · simp only [dateRangeSample, dtA, dtB, dumpProp, dumpValue, dateDumpValue, dateText,
      PropKind.format, Except.bind]
    rw [show _convert_data (Json.obj [("date",
          Json.obj [("start", Json.str (formatDatetime ⟨2024, 1, 1, 10, 0, 0, 0, 0⟩)),
                    ("end", Json.str (formatDatetime ⟨2024, 1, 2, 23, 30, 0, 0, 28800000000⟩))])])
        = dateOutput [("start", Json.str (formatDatetime ⟨2024, 1, 1, 10, 0, 0, 0, 0⟩)),
                    ("end", Json.str (formatDatetime ⟨2024, 1, 2, 23, 30, 0, 0, 28800000000⟩))] from by
      simp [_convert_data, jlookup, Json.truthy]]
    rfl
  · simp only [dumpProp, dumpValue, textDumpValue, pyToJson, PropKind.format, Except.bind]
    simp [_convert_data, jlookup, richTextConcat, richTextChunk]
  · simp only [dumpProp, dumpValue, dateDumpValue, PropKind.format, Except.bind]
    simp only [_convert_data, jlookup]
    norm_num [Json.truthy, dateOutput, jlookup]
    rfl
  · simp [dumpProp, dumpValue, dateDumpValue, PropKind.format, Except.bind]

/-! ## Payload characterization for `__dump_properties` (C3, C6) -/

/-- The fields `__dump_properties` keeps: declared, not read-only, not an
excluded unique key, current value not `None`. -/
def keptField (uks : List String) (vals : List (String × PyVal)) (ex : Bool)
    (kd : String × PropDecl) : Bool :=
  !(decide (kd.2.variant = .readOnly)) && !(ex && uks.contains kd.1)
    && !(lookupVal vals kd.1).isNone

theorem dumpFields_keys {uks : List String} {vals : List (String × PyVal)} {ex : Bool} :
    ∀ {defs : List (String × PropDecl)} {out : List (String × Json)},
    dumpFields uks vals ex defs = .ok out →
    out.map Prod.fst
      = (defs.filter (keptField uks vals ex)).map (fun kd => resolvedName kd.1 kd.2) := by
  intro defs
  induction defs with
  | nil =>
    intro out h
    simp only [dumpFields] at h
    cases h
    rfl
  | cons kd rest ih =>
    obtain ⟨key, d⟩ := kd
    intro out h
    simp only [dumpFields] at h
    by_cases hro : d.variant = .readOnly
    · rw [if_pos hro] at h
      have hkept : ¬ keptField uks vals ex (key, d) = true := by
        simp [keptField, hro]
      rw [List.filter_cons_of_neg hkept]
      exact ih h
    · rw [if_neg hro] at h
      cases hex : (ex && uks.contains key) with
      | true =>
        rw [hex, if_pos rfl] at h
        have hex' := hex
        simp only [Bool.and_eq_true] at hex'
        obtain ⟨hex1, hex2⟩ := hex'
        have hkept : ¬ keptField uks vals ex (key, d) = true := by
          simp [keptField, hex1, hex2]
          intro _ hknot
          exact absurd (show key ∈ uks by simpa using hex2) hknot
        rw [List.filter_cons_of_neg hkept]
        exact ih h
      | false =>
        rw [hex] at h
        simp only [Bool.false_eq_true, if_false] at h
        cases hnone : (lookupVal vals key).isNone with
        | true =>
          rw [hnone, if_pos rfl] at h
          have hkept : ¬ keptField uks vals ex (key, d) = true := by
            simp [keptField, hnone]
          rw [List.filter_cons_of_neg hkept]
          exact ih h
        | false =>
          rw [hnone] at h
          simp only [Bool.false_eq_true, if_false] at h
          cases hdp : dumpProp d (lookupVal vals key) with
          | error e => rw [hdp] at h; cases h
          | ok j =>
            rw [hdp] at h
            cases hrest : dumpFields uks vals ex rest with
            | error e => rw [hrest] at h; cases h
            | ok out' =>
              rw [hrest] at h
              cases h
              have hcond : ex = false ∨ key ∉ uks := by
                cases ex with
                | false => exact Or.inl rfl
                | true =>
                  refine Or.inr ?_
                  have hc : uks.contains key = false := by simpa using hex
                  simpa using hc
              have hkept : keptField uks vals ex (key, d) = true := by
                simp [keptField, hro, hnone]
                exact hcond
              rw [List.filter_cons_of_pos hkept]
              simp [ih hrest]

/-! ## Sample record type used by witnesses -/

/-- A record type with a unique key `email`, a writable `nick` and a
read-only `score`. -/
def demoCls : ModelClass :=
  { databaseId := "db1"
    propDefs := [("email", ⟨.email, Option.none⟩), ("nick", ⟨.richText, Option.none⟩),
                 ("score", ⟨.readOnly, Option.none⟩)]
    uniqueKeys := ["email"] }

def inst0 : Instance :=
  { cls := demoCls, id := Option.none
    vals := [("email", .str "a@x.com"), ("nick", .str "n")] }

def existingInst : Instance :=
  { cls := demoCls, id := some "e1", vals := [("email", .str "a@x.com")] }

/-- A store in which the uniqueness query matches nothing. -/
def emptyRemote : Remote := { queryResult := fun _ => [], createId := "new-id" }

/-- A store in which the uniqueness query matches exactly one record. -/
def oneRemote : Remote := { queryResult := fun _ => [existingInst], createId := "new-id" }

/-- A store in which the uniqueness query matches two records. -/
def twoRemote : Remote :=
  { queryResult := fun _ => [existingInst, existingInst], createId := "new-id" }

/-- The uniqueness filter `save`/`upsert` build for `inst0` (the
`property` entry is `null`: the descriptor has no name override and
`filter_value` uses `self.name` directly). -/
def sampleFilter : Json :=
  .obj [("property", Json.null), ("email", .obj [("equals", .str "a@x.com")])]

def sampleCreateProps : List (String × Json) :=
  [("email", .obj [("email", .str "a@x.com")]),
   ("nick", .obj [("rich_text", .arr [.obj [("text", .obj [("content", .str "n")])]])])]

def sampleUpdateProps : List (String × Json) :=
  [("nick", .obj [("rich_text", .arr [.obj [("text", .obj [("content", .str "n")])]])])]

/-! ## C3: update payload excludes uniqueness keys -/

/-- C3: for every record instance with an identifier (and an encodable
payload), `update()` sends exactly the payload `__dump_properties`
computes with `exclude_unique_keys=True`; its field names are exactly
those of the declared fields that are not read-only, not in the
uniqueness-key set and hold a non-`None` value — in particular every
field arising from the uniqueness-key set is excluded. -/
theorem c3_update_excludes_unique (inst : Instance) (pid : String)
    (payload : List (String × Json))
    (hid : inst.id = some pid)
    (hp : inst.dump_properties true = .ok payload) :
    inst.update = .ok inst [.update pid payload]
  ∧ payload.map Prod.fst
      = (inst.cls.propDefs.filter (keptField inst.cls.uniqueKeys inst.vals true)).map
          (fun kd => resolvedName kd.1 kd.2)
  ∧ (inst.cls.propDefs.filter (keptField inst.cls.uniqueKeys inst.vals true)).all
      (fun kd => !(inst.cls.uniqueKeys.contains kd.1)
        && !(decide (kd.2.variant = PropKind.readOnly))
        && !(lookupVal inst.vals kd.1).isNone) = true := by
  refine ⟨by simp [Instance.update, hid, Instance.dump_properties] at hp ⊢ <;> simp [hp],
    dumpFields_keys hp, ?_⟩
  simp only [List.all_eq_true]
  intro kd hkd
  obtain ⟨hmem, hkept⟩ := List.mem_filter.mp hkd
  simp only [keptField, Bool.and_eq_true] at hkept
  obtain ⟨⟨h1, h2⟩, h3⟩ := hkept
  simp only [Bool.and_eq_true]
  refine ⟨⟨?_, h1⟩, h3⟩
  cases hc : inst.cls.uniqueKeys.contains kd.1 with
  | false => rfl
  | true => rw [hc] at h2; simp at h2

/-- Witness for C3 on `inst0` persisted under identifier `"pid"`. -/
theorem c3_update_excludes_unique_witness :
    ({ inst0 with id := some "pid" } : Instance).update
      = .ok { inst0 with id := some "pid" } [.update "pid" sampleUpdateProps]
  ∧ sampleUpdateProps.map Prod.fst = ["nick"] :=
  ⟨(c3_update_excludes_unique { inst0 with id := some "pid" } "pid" sampleUpdateProps
      rfl rfl).1, rfl⟩

/-! ## C6: read-only properties refuse encoding -/

theorem dumpFields_readonly_irrelevant {uks : List String} {vals : List (String × PyVal)}
    {ex : Bool} {k : String} {v' : PyVal} :
    ∀ {defs : List (String × PropDecl)},
    (∀ kd ∈ defs, kd.1 = k → kd.2.variant = PropKind.readOnly) →
    dumpFields uks ((k, v') :: vals) ex defs = dumpFields uks vals ex defs := by
  intro defs
  induction defs with
  | nil => intro _; rfl
  | cons kd rest ih =>
    obtain ⟨key, d⟩ := kd
    intro hro
    have hrest : ∀ kd ∈ rest, kd.1 = k → kd.2.variant = PropKind.readOnly := by
      intro kd hkd
      exact hro kd (List.mem_cons_of_mem _ hkd)
    by_cases hready : d.variant = PropKind.readOnly
    · simp only [dumpFields, if_pos hready]
      exact ih hrest
    · have hkk : ¬ (k = key) := by
        intro hkk
        exact hready (hro (key, d) (List.mem_cons_self _ _) hkk.symm)
      have hlv : lookupVal ((k, v') :: vals) key = lookupVal vals key := by
        simp [lookupVal, plookupVal, hkk]
      simp only [dumpFields, if_neg hready, hlv]
      rw [ih hrest]

/-- C6: `ReadOnlyProperty.dump_value` yields `None` ("omit") for every
input value; the payload of any write (`__dump_properties` in either
mode) never contains an entry arising from a read-only field, and
assigning any value to a field declared read-only leaves the payload
unchanged and raises nothing — writing such a field is a no-op, never an
error. -/
theorem c6_readonly_omitted (inst : Instance) (ex : Bool) (k : String) (v v' : PyVal)
    (hro : ∀ kd ∈ inst.cls.propDefs, kd.1 = k → kd.2.variant = PropKind.readOnly) :
    dumpValue .readOnly v = .ok .null
  ∧ ({ inst with vals := (k, v') :: inst.vals } : Instance).dump_properties ex
      = inst.dump_properties ex
  ∧ (∀ payload, inst.dump_properties ex = .ok payload →
      payload.map Prod.fst
        = (inst.cls.propDefs.filter (keptField inst.cls.uniqueKeys inst.vals ex)).map
            (fun kd => resolvedName kd.1 kd.2))
  ∧ (inst.cls.propDefs.filter (keptField inst.cls.uniqueKeys inst.vals ex)).all
      (fun kd => !(decide (kd.2.variant = PropKind.readOnly))) = true := by
  refine ⟨rfl, dumpFields_readonly_irrelevant hro, fun payload hp => dumpFields_keys hp, ?_⟩
  simp only [List.all_eq_true]
  intro kd hkd
  obtain ⟨hmem, hkept⟩ := List.mem_filter.mp hkd
  simp only [keptField, Bool.and_eq_true] at hkept
  exact hkept.1.1

/-- Witness for C6 on `inst0`'s read-only `score` field: setting it to
`99` leaves the update payload untouched. -/
theorem c6_readonly_omitted_witness :
    ({ inst0 with vals := ("score", PyVal.int 99) :: inst0.vals } : Instance).dump_properties true
      = inst0.dump_properties true
  ∧ inst0.dump_properties true = .ok sampleUpdateProps :=
  ⟨(c6_readonly_omitted inst0 true "score" (.int 99) (.int 99)
      (by intro kd hkd h1
          simp [demoCls, inst0] at hkd
          rcases hkd with h | h | h <;> simp [h] at h1 ⊢ <;> simp [h1])).2.1,
    rfl⟩

/-! ## C1: save() uniqueness enforcement -/

/-- C1: for every record instance without an identifier whose type
declares a non-empty uniqueness-key set, `save()` queries the collection
with the uniqueness filter first; when at least one record matches it
raises `IntegrityError` having issued no create (the trace is exactly
the query); when none matches it issues the create (with the
`__dump_properties` payload) and the instance then carries the
identifier the store returned. -/
theorem c1_save_uniqueness (r : Remote) (inst : Instance) (f : Json)
    (hid : inst.id = Option.none)
    (hkeys : inst.cls.uniqueKeys ≠ [])
    (hf : buildUniqueFilter inst = .ok f) :
    (r.queryResult f ≠ [] →
        inst.save r = .err "Unique constraint failed." [.query f]
      ∧ (inst.save r).ops.all (fun op => !op.isCreate) = true)
  ∧ (∀ props, r.queryResult f = [] → inst.dump_properties false = .ok props →
        inst.save r = .ok { inst with id := some r.createId }
            [.query f, .create inst.cls.databaseId props]
      ∧ ({ inst with id := some r.createId } : Instance).id = some r.createId) := by
  have hempty : inst.cls.uniqueKeys.isEmpty = false := by
    cases hks : inst.cls.uniqueKeys with
    | nil => exact absurd hks hkeys
    | cons a rest => rfl
  constructor
  · intro hne
    have hlen : 0 < (r.queryResult f).length := List.length_pos.mpr hne
    have hsave : inst.save r = .err "Unique constraint failed." [.query f] := by
      simp [Instance.save, hid, hempty, hf, hlen]
    exact ⟨hsave, by rw [hsave]; rfl⟩
  · intro props hq hp
    refine ⟨?_, rfl⟩
    simp [Instance.save, hid, hempty, hf, hq, hp]

/-- Witness for C1: both branches at concrete stores — a match raises
without creating; no match creates and assigns the returned id. -/
theorem c1_save_uniqueness_witness :
    (inst0.save oneRemote = .err "Unique constraint failed." [.query sampleFilter]
      ∧ (inst0.save oneRemote).ops.all (fun op => !op.isCreate) = true)
  ∧ (inst0.save emptyRemote
        = .ok { inst0 with id := some "new-id" } [.query sampleFilter, .create "db1" sampleCreateProps]
      ∧ ({ inst0 with id := some "new-id" } : Instance).id = some "new-id") :=
  ⟨(c1_save_uniqueness oneRemote inst0 sampleFilter rfl (by simp [inst0, demoCls]) rfl).1
      (by simp [oneRemote]),
   (c1_save_uniqueness emptyRemote inst0 sampleFilter rfl (by simp [inst0, demoCls]) rfl).2
      sampleCreateProps rfl rfl⟩

/-! ## C2: upsert() -/

/-- No-unique-keys record type and instance (for the C2 counterexample). -/
def noKeyCls : ModelClass := { demoCls with uniqueKeys := [] }

def instNK : Instance :=
  { cls := noKeyCls, id := Option.none, vals := [("email", .str "a@x.com")] }

/-- C2 counterexample: the claim says `upsert()` requires at least one
uniqueness field declared, but on a type declaring none `upsert()` does
not fail — it silently delegates to `save()` and creates the record. -/
theorem c2_upsert_counterexample :
    instNK.upsert emptyRemote = instNK.save emptyRemote
  ∧ instNK.upsert emptyRemote
      = .ok { instNK with id := some "new-id" }
          [.create "db1" [("email", Json.obj [("email", Json.str "a@x.com")])]] :=
  ⟨rfl, rfl⟩

/-- C2 as amended: `upsert()` does not require a uniqueness field — with
none declared it delegates directly to `save()` (no membership query).
With at least one declared it builds the same filter as `save` and
queries once: zero matches behave as `save()` (whose own query is issued
again after the `upsert` one), exactly one match adopts that record's
identifier and performs `update()`, and two or more matches raise the
multiplicity error having performed no mutation. -/
theorem c2_upsert_amended (r : Remote) (inst : Instance) (f : Json) :
    (inst.cls.uniqueKeys = [] → inst.upsert r = inst.save r)
  ∧ (inst.cls.uniqueKeys ≠ [] → buildUniqueFilter inst = .ok f →
      (r.queryResult f = [] →
          inst.upsert r = (inst.save r).prependOp (.query f))
    ∧ (∀ o, r.queryResult f = [o] →
          inst.upsert r = (Instance.update { inst with id := o.id }).prependOp (.query f))
    ∧ (∀ o1 o2 os, r.queryResult f = o1 :: o2 :: os →
          inst.upsert r
              = .err "There are more than one object that meets the filtering criteria."
                  [.query f]
        ∧ (inst.upsert r).ops.all (fun op => !op.isMutation) = true)) := by
  constructor
  · intro hks
    simp [Instance.upsert, hks]
  · intro hkeys hf
    have hempty : inst.cls.uniqueKeys.isEmpty = false := by
      cases hks : inst.cls.uniqueKeys with
      | nil => exact absurd hks hkeys
      | cons a rest => rfl
    refine ⟨?_, ?_, ?_⟩
    · intro hq
      simp [Instance.upsert, hempty, hf, hq]
    · intro o hq
      simp [Instance.upsert, hempty, hf, hq]
    · intro o1 o2 os hq
      have hup : inst.upsert r
          = .err "There are more than one object that meets the filtering criteria."
              [.query f] := by
        simp [Instance.upsert, hempty, hf, hq]
      exact ⟨hup, by rw [hup]; rfl⟩

/-- Witness for C2 (amended) at concrete stores: one match adopts the
existing identifier and updates; two matches fail with no mutation. -/
theorem c2_upsert_amended_witness :
    inst0.upsert oneRemote
        = (Instance.update { inst0 with id := some "e1" }).prependOp (.query sampleFilter)
  ∧ (inst0.upsert twoRemote
        = .err "There are more than one object that meets the filtering criteria."
            [.query sampleFilter]
      ∧ (inst0.upsert twoRemote).ops.all (fun op => !op.isMutation) = true) :=
  ⟨((c2_upsert_amended oneRemote inst0 sampleFilter).2 (by simp [inst0, demoCls]) rfl).2.1
      existingInst rfl,
   ((c2_upsert_amended twoRemote inst0 sampleFilter).2 (by simp [inst0, demoCls]) rfl).2.2
      existingInst existingInst [] rfl⟩

/-! ## C10: fresh Manager per `objects` access -/

/-- C10: every access to `Model.objects` evaluates `Manager(cls)` anew,
whose constructor leaves both builder slots `None` — so configuration
applied through one access is never observable through a later access,
and only a chained `filter(...).query()` carries a filter into the query
payload. -/
theorem c10_objects_fresh (cls : ModelClass) (f : Json) (sorts : List Json)
    (hf : f.truthy = true) (hs : sorts ≠ []) :
    objects cls = { model := cls, queryFilter := Option.none, queryOrderBy := Option.none }
  ∧ (objects cls).queryFilter = Option.none
  ∧ (objects cls).queryOrderBy = Option.none
  ∧ (∀ g sorts', (objects cls) = ((objects cls).filter g).order_by sorts' → False)
  ∧ (objects cls).queryPayload = [("database_id", .str cls.databaseId)]
  ∧ ((objects cls).filter f).queryPayload
      = [("database_id", .str cls.databaseId), ("filter", f)]
  ∧ (((objects cls).filter f).order_by sorts).queryPayload
      = [("database_id", .str cls.databaseId), ("filter", f), ("sorts", .arr sorts)] := by
  refine ⟨rfl, rfl, rfl, ?_, rfl, ?_, ?_⟩
  · intro g sorts' h
    have : (Option.none : Option Json) = some g := congrArg Manager.queryFilter h
    cases this
  · simp [Manager.queryPayload, Manager.filter, objects, hf]
  · simp [Manager.queryPayload, Manager.filter, Manager.order_by, objects, hf, hs]

/-- Witness for C10 at a concrete truthy filter and sort list. -/
theorem c10_objects_fresh_witness :
    (objects demoCls).queryPayload = [("database_id", .str "db1")]
  ∧ ((objects demoCls).filter sampleFilter).queryPayload
      = [("database_id", .str "db1"), ("filter", sampleFilter)] :=
  ⟨((c10_objects_fresh demoCls sampleFilter [Json.null] rfl (by simp)).2.2.2.2).1,
   ((c10_objects_fresh demoCls sampleFilter [Json.null] rfl (by simp)).2.2.2.2).2.1⟩

/-! ## C7: exactly one table header-separator per sibling level -/

/-- The positions (within one sibling sequence) at which
`_block_to_text` is invoked on a `table_row` with table state still
unset — exactly the invocations whose output carries the
header-separator line, by the `table_row` equations of
`c7_table_separator` — threading the state with `stateStep` just as
`__list_blocks` does. -/
def sepIdxAux : List BlockData → Bool → Nat → List Nat
  | [], _, _ => []
  | b :: rest, t, i =>
    (if isTableRow b && !t then [i] else [])
      ++ sepIdxAux rest (stateStep t b) (i + 1)

theorem stateStep_or (t : Bool) (b : BlockData) :
    stateStep t b = (t || isTableRow b) := by
  cases b <;> cases t <;> simp [stateStep, _block_to_text, isTableRow]

theorem sepIdxAux_state_true (bs : List BlockData) : ∀ i, sepIdxAux bs true i = [] := by
  induction bs with
  | nil => intro i; rfl
  | cons b rest ih =>
    intro i
    simp [sepIdxAux, stateStep_or, ih]

theorem sepIdxAux_no_row (bs : List BlockData) (h : bs.any isTableRow = false) :
    ∀ i, sepIdxAux bs false i = [] := by
  induction bs with
  | nil => intro i; rfl
  | cons b rest ih =>
    intro i
    simp only [List.any_cons, Bool.or_eq_false_iff] at h
    simp [sepIdxAux, stateStep_or, h.1, ih h.2]

theorem sepIdxAux_first_row (bs : List BlockData) (h : bs.any isTableRow = true) :
    ∀ i, sepIdxAux bs false i = [i + List.findIdx isTableRow bs] := by
  induction bs with
  | nil => simp at h
  | cons b rest ih =>
    intro i
    cases hb : isTableRow b with
    | true =>
      simp [sepIdxAux, stateStep_or, hb, sepIdxAux_state_true, List.findIdx_cons]
    | false =>
      have hrest : rest.any isTableRow = true := by
        simp only [List.any_cons, hb, Bool.false_or] at h
        exact h
      have hfi : List.findIdx isTableRow (b :: rest)
          = List.findIdx isTableRow rest + 1 := by
        simp [List.findIdx_cons, hb]
      rw [hfi]
      simp only [sepIdxAux, hb, stateStep_or, Bool.false_or, Bool.false_and, Bool.and_false]
      rw [ih hrest]
      simp
      omega

/-- C7: within one sibling sequence `__list_blocks` threads the table
state returned by `_block_to_text` (conjunct 4); a `table_row` rendered
with the state unset emits its row followed by exactly one
header-separator line and flips the state (conjunct 1), a `table_row`
rendered with the state set emits only the row (conjunct 2); the state,
once set, is never reset by any sibling, table or not (conjunct 3); so
a sibling sequence containing table rows carries exactly one separator,
directly below the first `table_row`, and none elsewhere — even when a
non-table sibling intervenes before a later `table_row` (conjuncts 5
and 6). -/
theorem c7_table_separator :
    (∀ cells, _block_to_text (.table_row cells) false
        = (tableRowLine cells ++ "\n" ++ tableSepLine cells, true, ""))
  ∧ (∀ cells, _block_to_text (.table_row cells) true = (tableRowLine cells, true, ""))
  ∧ (∀ t b, stateStep t b = (t || isTableRow b))
  ∧ (∀ bd ch rest t lvl,
      listBlocksAux (.node bd ch :: rest) t lvl
        = sibPiece bd t lvl ++ (if ch.isEmpty then "" else listBlocksFresh ch (lvl + 1))
            ++ listBlocksAux rest (stateStep t bd) lvl)
  ∧ (∀ bs, bs.any isTableRow = true →
        sepIdxAux bs false 0 = [List.findIdx isTableRow bs])
  ∧ (∀ bs, bs.any isTableRow = false → sepIdxAux bs false 0 = []) := by
  refine ⟨fun cells => rfl, fun cells => rfl, stateStep_or, ?_, ?_, ?_⟩
  · intro bd ch rest t lvl
    simp only [listBlocksAux, stateStep]
  · intro bs h
    simpa using sepIdxAux_first_row bs h 0
  · intro bs h
    exact sepIdxAux_no_row bs h 0

/-- Witness for C7 on the sequence row, divider, row: one separator, at
index 0, and no second separator after the non-table sibling. -/
theorem c7_table_separator_witness :
    sepIdxAux [.table_row [[⟨"x", Option.none⟩]], .divider,
               .table_row [[⟨"y", Option.none⟩]]] false 0
      = [List.findIdx isTableRow
           [.table_row [[⟨"x", Option.none⟩]], .divider,
            .table_row [[⟨"y", Option.none⟩]]]]
  ∧ List.findIdx isTableRow
        [BlockData.table_row [[⟨"x", Option.none⟩]], .divider,
         .table_row [[⟨"y", Option.none⟩]]] = 0 :=
  ⟨c7_table_separator.2.2.2.2.1 _ rfl, rfl⟩

/-! ## C8: synced-block exclusion -/

def mirrorChild : PBlock := ⟨"c1", "paragraph", false, Option.none, []⟩

/-- A synced block that references another block as its source — a
mirror, not the origin (`synced_from` non-null). -/
def mirrorBlock : PBlock := ⟨"m1", "synced_block", true, some (some "src-id"), [mirrorChild]⟩

def originChild : PBlock := ⟨"c2", "paragraph", false, Option.none, []⟩

/-- A synced block that is itself the origin (`synced_from` null). -/
def originBlock : PBlock := ⟨"o1", "synced_block", true, some Option.none, [originChild]⟩

/-- C8: with exclusion enabled, the traversal is claimed (and the
source's own comment says) to skip mirrors and descend into origins.
The code tests `not block['synced_block']['synced_from']`, which is true
precisely on the origin — so a mirror synced block is traversed and
yielded together with its children, while an origin synced block is
skipped entirely, children included: the opposite of the claim. -/
theorem c8_synced_exclusion (ex : Bool) :
    list_page_blocks true [mirrorBlock] = [mirrorChild, mirrorBlock]
  ∧ list_page_blocks true [originBlock] = []
  ∧ syncSkip ex mirrorBlock = false
  ∧ syncSkip true originBlock = true := by
  refine ⟨?_, ?_, ?_, rfl⟩
  · simp [list_page_blocks, mirrorBlock, mirrorChild, syncSkip]
  · simp [list_page_blocks, originBlock, syncSkip]
  · simp [syncSkip, mirrorBlock]

/-- Witness for C8 at `ex = true`. -/
theorem c8_synced_exclusion_witness :
    list_page_blocks true [mirrorBlock] = [mirrorChild, mirrorBlock]
  ∧ syncSkip true mirrorBlock = false :=
  ⟨(c8_synced_exclusion true).1, (c8_synced_exclusion true).2.2.1⟩

/-! ## C9: cutoff-based early termination -/

/-- The parsed instant of a page's `last_edited_time` (junk `0` when the
string does not parse as a datetime; the C9 hypothesis rules that out). -/
def pageInstant (p : RPage) : Int :=
  match _str_to_datetime p.last_edited_time with
  | .ok (.datetime dt) => dt.instant
  | _ => 0

/-- C9: over a stream of pages whose timestamps all parse (as the search
endpoint's do) sorted by last-edited time descending, the generator
yields exactly the maximal prefix of pages strictly newer than the
cutoff — it terminates at the first page at or before the cutoff and
never yields a page at or before it. -/
theorem c9_recent_pages_cutoff (c : PyDatetime) (ps : List RPage)
    (hparse : ∀ p ∈ ps, ∃ dt, _str_to_datetime p.last_edited_time = .ok (.datetime dt))
    (hsorted : ps.Pairwise (fun a b => pageInstant b ≤ pageInstant a)) :
    list_recent_pages (some c) ps = .ok (ps.takeWhile (pageNewer c))
  ∧ ∀ p ∈ ps.takeWhile (pageNewer c), pageNewer c p = true := by
  refine ⟨?_, fun p hp => List.mem_takeWhile_imp hp⟩
  induction ps with
  | nil => rfl
  | cons p rest ih =>
    obtain ⟨dt, hdt⟩ := hparse p (List.mem_cons_self _ _)
    have hrest : ∀ q ∈ rest, ∃ dt, _str_to_datetime q.last_edited_time = .ok (.datetime dt) :=
      fun q hq => hparse q (List.mem_cons_of_mem _ hq)
    by_cases hle : dt.instant ≤ c.instant
    · have hnew : pageNewer c p = false := by
        simp [pageNewer, hdt]
        omega
      simp [list_recent_pages, hdt, hle, List.takeWhile_cons, hnew]
    · have hnew : pageNewer c p = true := by
        simp [pageNewer, hdt]
        omega
      have := ih hrest (List.Pairwise.sublist (List.sublist_cons_self _ _) hsorted)
      simp [list_recent_pages, hdt, hle, List.takeWhile_cons, hnew, this]

def cutoffSample : PyDatetime := ⟨2024, 1, 1, 0, 0, 0, 0, 28800000000⟩

def pageNew : RPage := ⟨"p1", "2024-06-01T00:00:00.000+00:00"⟩

def pageOld : RPage := ⟨"p2", "2023-01-01T00:00:00.000+00:00"⟩

/-- Witness for C9: the newer page is yielded, the generator stops at
the first page at or before the cutoff. -/
theorem c9_recent_pages_cutoff_witness :
    list_recent_pages (some cutoffSample) [pageNew, pageOld]
      = .ok ([pageNew, pageOld].takeWhile (pageNewer cutoffSample))
  ∧ [pageNew, pageOld].takeWhile (pageNewer cutoffSample) = [pageNew] :=
  ⟨(c9_recent_pages_cutoff cutoffSample [pageNew, pageOld]
      (by intro p hp
          rcases (show p = pageNew ∨ p = pageOld by simpa using hp) with rfl | rfl
          · exact ⟨astimezoneLocal ⟨2024, 6, 1, 0, 0, 0, 0, 0⟩, rfl⟩
          · exact ⟨astimezoneLocal ⟨2023, 1, 1, 0, 0, 0, 0, 0⟩, rfl⟩)
      (by simp [List.pairwise_cons]
          decide)).1,
    rfl⟩
